import Mathlib

/-!
Verification of `skyvern/forge/sdk/log_artifacts.py`: the context log filter,
the four entity-scoped save operations, and the artifact reconciler
`_save_log_artifacts`. External collaborators (the artifact store, the
artifact manager, the two encoders) are modelled as an environment of
possibly-raising functions; each execution is recorded as a trace of events
so that call patterns (lookup, update, create, warning, error log) can be
reasoned about.
-/

namespace LogArtifacts

/-- A structured log entry: a mapping of field name to value. Entry values are
modelled as strings, since every comparison the code performs on them is
against a string entity id. -/
structure LogEntry where
  fields : List (String × String)
deriving DecidableEq, Repr

/-- Python `dict.get(key)`: the value stored at the first matching key, if any. -/
def LogEntry.get? (e : LogEntry) (k : String) : Option String :=
  (e.fields.find? (fun p => p.1 == k)).map Prod.snd

/-- Python `dict.get(key, default)`. -/
def LogEntry.getD (e : LogEntry) (k d : String) : String :=
  (e.get? k).getD d

/-- Whether the entry has the given field (`key in dict`). -/
def LogEntry.hasField (e : LogEntry) (k : String) : Bool :=
  (e.get? k).isSome

/-- Modelled from the spec: `LogEntityType` lives in
`skyvern/forge/sdk/artifact/models.py`, which is not among the provided
sources. The spec gives exactly four variants (Step, Task, WorkflowRun,
WorkflowRunBlock); the enum is a Python `StrEnum`, so an unrecognized value
outside the four variants is possible and is modelled by `other`. -/
inductive LogEntityType where
  | step
  | task
  | workflow_run
  | workflow_run_block
  | other (s : String)
deriving DecidableEq, Repr

/-- Modelled from the spec: the two artifact types relevant here (raw log and
formatted log), from `skyvern/forge/sdk/artifact/models.py` which is not among
the provided sources. -/
inductive ArtifactType where
  | skyvern_log_raw
  | skyvern_log
deriving DecidableEq, Repr

/-- Modelled from the spec: an artifact record as returned by the store; the
reconciler uses only its `artifact_id`. -/
structure Artifact where
  artifact_id : String
deriving DecidableEq, Repr

/-- The four entity-id keyword arguments of `_save_log_artifacts`
(Python `None` is `none`). -/
structure EntityIds where
  step_id : Option String := none
  task_id : Option String := none
  workflow_run_id : Option String := none
  workflow_run_block_id : Option String := none
deriving DecidableEq, Repr

/-- `primary_key_from_log_entity_type`: maps an entity kind to the entity-id
field name; the Python `raise ValueError(...)` on an unrecognized kind is an
`Except.error`. -/
def primary_key_from_log_entity_type : LogEntityType → Except String String
  | .step => .ok "step_id"
  | .task => .ok "task_id"
  | .workflow_run => .ok "workflow_run_id"
  | .workflow_run_block => .ok "workflow_run_block_id"
  | .other s => .error ("Invalid log entity type: " ++ s)

/-- Observable actions of one execution: the warning emitted by
`with_skyvern_context`, the invocation of each encoder, each call on the
artifact store and the artifact manager, and the `LOG.error` of the
reconciler's exception handler (with the full context it logs). -/
inductive Event where
  | warnLog (funcName : String)
  | rawEncodeCall
  | fmtEncodeCall
  | getArtifactCall (artifactType : ArtifactType) (ids : EntityIds) (organization_id : String)
  | updateCall (inPass : ArtifactType) (artifact_id : String) (organization_id : String)
      (data : String) (primary_key : String)
  | createCall (organization_id : String) (ids : EntityIds) (log_entity_type : LogEntityType)
      (log_entity_id : String) (artifactType : ArtifactType) (data : String)
  | errorLog (log_entity_type : LogEntityType) (log_entity_id : String)
      (organization_id : String) (ids : EntityIds) (detail : String)
deriving DecidableEq, Repr

/-- The external collaborators. Each call may raise, modelled as
`Except.error` with the exception detail:
`json_dumps` is `json.dumps(log, cls=SkyvernJSONLogEncoder, indent=2)`,
`log_encode` is `SkyvernLogEncoder.encode(log)`,
`get_artifact_by_entity_id` is `app.DATABASE.get_artifact_by_entity_id`
(taking artifact type, the four entity ids, organization id),
`update_artifact_data` is `app.ARTIFACT_MANAGER.update_artifact_data`
(taking artifact id, organization id, data, primary key), and
`create_log_artifact` is `app.ARTIFACT_MANAGER.create_log_artifact`
(taking organization id, the four entity ids, entity type, entity id,
artifact type, data). -/
structure Env where
  json_dumps : List LogEntry → Except String String
  log_encode : List LogEntry → Except String String
  get_artifact_by_entity_id : ArtifactType → EntityIds → String → Except String (Option Artifact)
  update_artifact_data : String → String → String → String → Except String Unit
  create_log_artifact : String → EntityIds → LogEntityType → String → ArtifactType → String →
      Except String Unit

/-- One reconciliation pass of `_save_log_artifacts` for a given artifact type
and already-encoded payload: look up an existing artifact of that type; if
found, derive the primary key (argument evaluation precedes the call, so a
raising derivation prevents the update call) and update; otherwise create.
Returns the events emitted and the exception escaping the pass, if any. -/
def reconcilePass (env : Env) (atype : ArtifactType) (ids : EntityIds)
    (log_entity_type : LogEntityType) (log_entity_id organization_id data : String) :
    List Event × Option String :=
  let lookupEv := Event.getArtifactCall atype ids organization_id
  match env.get_artifact_by_entity_id atype ids organization_id with
  | .error e => ([lookupEv], some e)
  | .ok (some art) =>
    match primary_key_from_log_entity_type log_entity_type with
    | .error e => ([lookupEv], some e)
    | .ok pk =>
      match env.update_artifact_data art.artifact_id organization_id data pk with
      | .error e => ([lookupEv, Event.updateCall atype art.artifact_id organization_id data pk],
          some e)
      | .ok _ => ([lookupEv, Event.updateCall atype art.artifact_id organization_id data pk],
          none)
  | .ok none =>
    match env.create_log_artifact organization_id ids log_entity_type log_entity_id atype data with
    | .error e =>
        ([lookupEv, Event.createCall organization_id ids log_entity_type log_entity_id atype data],
         some e)
    | .ok _ =>
        ([lookupEv, Event.createCall organization_id ids log_entity_type log_entity_id atype data],
         none)

/-- The raw half of the `try:` body of `_save_log_artifacts`:
`log_json = json.dumps(log, cls=SkyvernJSONLogEncoder, indent=2)` followed by
the raw-artifact lookup and update-or-create. -/
def rawSegment (env : Env) (log : List LogEntry) (log_entity_type : LogEntityType)
    (log_entity_id organization_id : String) (ids : EntityIds) : List Event × Option String :=
  match env.json_dumps log with
  | .error e => ([Event.rawEncodeCall], some e)
  | .ok log_json =>
    let r := reconcilePass env .skyvern_log_raw ids log_entity_type log_entity_id
      organization_id log_json
    (Event.rawEncodeCall :: r.1, r.2)

/-- The formatted half of the `try:` body of `_save_log_artifacts`:
`formatted_log = SkyvernLogEncoder.encode(log)` followed by the formatted
artifact lookup and update-or-create. -/
def fmtSegment (env : Env) (log : List LogEntry) (log_entity_type : LogEntityType)
    (log_entity_id organization_id : String) (ids : EntityIds) : List Event × Option String :=
  match env.log_encode log with
  | .error e => ([Event.fmtEncodeCall], some e)
  | .ok formatted_log =>
    let r := reconcilePass env .skyvern_log ids log_entity_type log_entity_id
      organization_id formatted_log
    (Event.fmtEncodeCall :: r.1, r.2)

/-- The whole `try:` body of `_save_log_artifacts`: the raw segment, then —
only if no exception was raised — the formatted segment. -/
def saveBody (env : Env) (log : List LogEntry) (log_entity_type : LogEntityType)
    (log_entity_id organization_id : String) (ids : EntityIds) : List Event × Option String :=
  match rawSegment env log log_entity_type log_entity_id organization_id ids with
  | (evs, some e) => (evs, some e)
  | (evs, none) =>
    let r := fmtSegment env log log_entity_type log_entity_id organization_id ids
    (evs ++ r.1, r.2)

/-- `_save_log_artifacts`: runs the body; the `except Exception` clause catches
any exception and emits `LOG.error` with the entity type, entity id,
organization id, all four entity-id fields and the exception detail
(`exc_info=True`). The function always returns normally. -/
def save_log_artifacts (env : Env) (log : List LogEntry) (log_entity_type : LogEntityType)
    (log_entity_id organization_id : String) (ids : EntityIds) : List Event :=
  match saveBody env log log_entity_type log_entity_id organization_id ids with
  | (evs, some e) =>
      evs ++ [Event.errorLog log_entity_type log_entity_id organization_id ids e]
  | (evs, none) => evs

/-- The list comprehension used by each save operation:
`[entry for entry in log if entry.get(field, "") == value]`. -/
def filterLog (log : List LogEntry) (field value : String) : List LogEntry :=
  log.filter (fun entry => entry.getD field "" == value)

/-- The Context Log Filter as the spec states it (section 4.1 and section 8):
exactly the entries whose `field` is present and equals `value`, in original
order; entries missing the field are excluded. -/
def specFilter (log : List LogEntry) (field value : String) : List LogEntry :=
  log.filter (fun entry => entry.get? field == some value)

/-- Modelled from the spec: the ambient Skyvern execution context
(`skyvern_context.current()`), exposing the accumulated log buffer and the
organization id. The context module is not among the provided sources. -/
structure SkyvernContext where
  log : List LogEntry
  organization_id : String

/-- `save_step_logs`, with the `with_skyvern_context` decorator inlined: with
no context, emit one warning naming the function and return; otherwise filter
the context's log on `step_id` and delegate to `_save_log_artifacts` with
entity kind Step and only `step_id` set among the four entity-id arguments. -/
def save_step_logs (ctx : Option SkyvernContext) (env : Env) (step_id : String) : List Event :=
  match ctx with
  | none => [Event.warnLog "save_step_logs"]
  | some c =>
    save_log_artifacts env (filterLog c.log "step_id" step_id) .step step_id
      c.organization_id { step_id := some step_id }

/-- `save_task_logs`, with the `with_skyvern_context` decorator inlined. -/
def save_task_logs (ctx : Option SkyvernContext) (env : Env) (task_id : String) : List Event :=
  match ctx with
  | none => [Event.warnLog "save_task_logs"]
  | some c =>
    save_log_artifacts env (filterLog c.log "task_id" task_id) .task task_id
      c.organization_id { task_id := some task_id }

/-- `save_workflow_run_logs`, with the `with_skyvern_context` decorator inlined. -/
def save_workflow_run_logs (ctx : Option SkyvernContext) (env : Env)
    (workflow_run_id : String) : List Event :=
  match ctx with
  | none => [Event.warnLog "save_workflow_run_logs"]
  | some c =>
    save_log_artifacts env (filterLog c.log "workflow_run_id" workflow_run_id) .workflow_run
      workflow_run_id c.organization_id { workflow_run_id := some workflow_run_id }

/-- `save_workflow_run_block_logs`, with the `with_skyvern_context` decorator
inlined. -/
def save_workflow_run_block_logs (ctx : Option SkyvernContext) (env : Env)
    (workflow_run_block_id : String) : List Event :=
  match ctx with
  | none => [Event.warnLog "save_workflow_run_block_logs"]
  | some c =>
    save_log_artifacts env (filterLog c.log "workflow_run_block_id" workflow_run_block_id)
      .workflow_run_block workflow_run_block_id c.organization_id
      { workflow_run_block_id := some workflow_run_block_id }

/-- The entity-id record an event carries along to the store or the manager:
the lookup and the create call each pass the four entity-id fields; the other
events do not. -/
def Event.idsUsed : Event → Option EntityIds
  | .getArtifactCall _ ids _ => some ids
  | .createCall _ ids _ _ _ _ => some ids
  | _ => none

/-- Whether an event belongs to the formatted pass: the formatted encoder
invocation, or a lookup, update or create against the formatted-log artifact
type. -/
def Event.isFmtPassEvent : Event → Bool
  | .fmtEncodeCall => true
  | .getArtifactCall a _ _ => a == .skyvern_log
  | .updateCall a _ _ _ _ => a == .skyvern_log
  | .createCall _ _ _ _ a _ => a == .skyvern_log
  | _ => false

lemma getD_eq_of_get?_none {e : LogEntry} {f d : String} (h : e.get? f = none) :
    e.getD f d = d := by
  simp [LogEntry.getD, h]

lemma get?_eq_none_of_hasField_false {e : LogEntry} {f : String}
    (h : e.hasField f = false) : e.get? f = none := by
  unfold LogEntry.hasField at h
  cases h2 : e.get? f with
  | none => rfl
  | some v => rw [h2] at h; simp at h

lemma mem_filterLog_empty_of_not_hasField {e : LogEntry} {L : List LogEntry} {f : String}
    (he : e ∈ L) (hf : e.hasField f = false) : e ∈ filterLog L f "" := by
  unfold filterLog
  refine List.mem_filter.mpr ⟨he, ?_⟩
  rw [getD_eq_of_get?_none (get?_eq_none_of_hasField_false hf)]
  rfl

/-- C1 counterexample: with value `""` and a log holding one entry that lacks
the field `step_id`, the code's filter includes that entry, though the claim
says every entry lacking the field is excluded from the result. -/
theorem C1_counterexample :
    (LogEntry.mk []) ∈ filterLog [LogEntry.mk []] "step_id" "" ∧
    (LogEntry.mk []).hasField "step_id" = false := by
  constructor
  · exact mem_filterLog_empty_of_not_hasField (List.mem_singleton.mpr rfl) rfl
  · rfl

/-- C1 (amended): for every log buffer L, field f and value v, the filter
returns a subsequence of L (original order preserved), consisting of exactly
the entries whose value at f — defaulting to the empty string when f is
absent — equals v; consequently, whenever v is nonempty, the result is
exactly the entries with f present and equal to v, entries lacking f being
excluded without raising. (When v is the empty string, entries lacking f are
included; see the counterexample.) -/
theorem C1_filter_amended (L : List LogEntry) (f v : String) :
    (filterLog L f v).Sublist L ∧
    (v ≠ "" → filterLog L f v = specFilter L f v) := by
  constructor
  · exact List.filter_sublist L
  · intro hv
    unfold filterLog specFilter
    apply List.filter_congr
    intro e _
    unfold LogEntry.getD
    cases h : e.get? f with
    | none =>
      simp only [Option.getD_none]
      have h1 : ("" == v) = false := by
        simp only [beq_eq_false_iff_ne]
        exact fun h2 => hv h2.symm
      rw [h1]
      rfl
    | some s =>
      simp only [Option.getD_some]
      show (s == v) = (some s == some v)
      by_cases hsv : s = v
      · subst hsv
        simp
      · simp [hsv]

/-- C1 amended witness at a concrete input: buffer with one matching entry,
one non-matching entry and one entry lacking the field, value `"s1"`. -/
theorem C1_filter_amended_witness :
    (filterLog [LogEntry.mk [("step_id", "s1")], LogEntry.mk [("step_id", "s2")],
        LogEntry.mk []] "step_id" "s1").Sublist
      [LogEntry.mk [("step_id", "s1")], LogEntry.mk [("step_id", "s2")], LogEntry.mk []] ∧
    filterLog [LogEntry.mk [("step_id", "s1")], LogEntry.mk [("step_id", "s2")],
        LogEntry.mk []] "step_id" "s1" =
      specFilter [LogEntry.mk [("step_id", "s1")], LogEntry.mk [("step_id", "s2")],
        LogEntry.mk []] "step_id" "s1" := by
  refine ⟨(C1_filter_amended _ _ _).1, (C1_filter_amended _ _ "s1").2 (by decide)⟩

/-- C9: when a save operation is called with the empty string as the entity
id, every buffer entry lacking the corresponding entity-id field is included
in the filtered log, which is exactly the log the operation passes to the
reconciler. Stated for all four save operations. -/
theorem C9_empty_id_includes_missing_field (ctx : SkyvernContext) (env : Env) (e : LogEntry)
    (he : e ∈ ctx.log) :
    (e.hasField "step_id" = false →
      e ∈ filterLog ctx.log "step_id" "" ∧
      save_step_logs (some ctx) env "" =
        save_log_artifacts env (filterLog ctx.log "step_id" "") .step "" ctx.organization_id
          { step_id := some "" }) ∧
    (e.hasField "task_id" = false →
      e ∈ filterLog ctx.log "task_id" "" ∧
      save_task_logs (some ctx) env "" =
        save_log_artifacts env (filterLog ctx.log "task_id" "") .task "" ctx.organization_id
          { task_id := some "" }) ∧
    (e.hasField "workflow_run_id" = false →
      e ∈ filterLog ctx.log "workflow_run_id" "" ∧
      save_workflow_run_logs (some ctx) env "" =
        save_log_artifacts env (filterLog ctx.log "workflow_run_id" "") .workflow_run ""
          ctx.organization_id { workflow_run_id := some "" }) ∧
    (e.hasField "workflow_run_block_id" = false →
      e ∈ filterLog ctx.log "workflow_run_block_id" "" ∧
      save_workflow_run_block_logs (some ctx) env "" =
        save_log_artifacts env (filterLog ctx.log "workflow_run_block_id" "")
          .workflow_run_block "" ctx.organization_id
          { workflow_run_block_id := some "" }) := by
  refine ⟨fun hf => ⟨mem_filterLog_empty_of_not_hasField he hf, rfl⟩,
          fun hf => ⟨mem_filterLog_empty_of_not_hasField he hf, rfl⟩,
          fun hf => ⟨mem_filterLog_empty_of_not_hasField he hf, rfl⟩,
          fun hf => ⟨mem_filterLog_empty_of_not_hasField he hf, rfl⟩⟩

/-- C9 witness: a concrete buffer with a single field-less entry; with the
empty string as entity id, that entry is included in the step filter and the
delegation equation holds. -/
theorem C9_witness :
    LogEntry.mk [] ∈ filterLog [LogEntry.mk []] "step_id" "" ∧
    (LogEntry.mk []).hasField "step_id" = false :=
  ⟨((C9_empty_id_includes_missing_field
      { log := [LogEntry.mk []], organization_id := "o" }
      { json_dumps := fun _ => .ok "RAW", log_encode := fun _ => .ok "FMT",
        get_artifact_by_entity_id := fun _ _ _ => .ok none,
        update_artifact_data := fun _ _ _ _ => .ok (),
        create_log_artifact := fun _ _ _ _ _ _ => .ok () }
      (LogEntry.mk []) (List.mem_singleton.mpr rfl)).1 rfl).1, rfl⟩

/-- A concrete healthy environment whose store lookup finds no artifact. -/
def envAllOk : Env where
  json_dumps := fun _ => .ok "RAW"
  log_encode := fun _ => .ok "FMT"
  get_artifact_by_entity_id := fun _ _ _ => .ok none
  update_artifact_data := fun _ _ _ _ => .ok ()
  create_log_artifact := fun _ _ _ _ _ _ => .ok ()

/-- A concrete healthy environment whose store lookup finds an existing
artifact with id `a1` for every query. -/
def envFound : Env where
  json_dumps := fun _ => .ok "RAW"
  log_encode := fun _ => .ok "FMT"
  get_artifact_by_entity_id := fun _ _ _ => .ok (some { artifact_id := "a1" })
  update_artifact_data := fun _ _ _ _ => .ok ()
  create_log_artifact := fun _ _ _ _ _ _ => .ok ()

/-- A concrete environment whose raw serializer raises. -/
def envRawFail : Env where
  json_dumps := fun _ => .error "boom"
  log_encode := fun _ => .ok "FMT"
  get_artifact_by_entity_id := fun _ _ _ => .ok none
  update_artifact_data := fun _ _ _ _ => .ok ()
  create_log_artifact := fun _ _ _ _ _ _ => .ok ()

/-- C4: with no active Skyvern context, each of the four save operations
returns normally with a trace containing exactly one warning event naming
the skipped function — in particular no artifact-store or artifact-manager
call and no other log event. -/
theorem C4_no_context_noop (env : Env) (i : String) :
    save_step_logs none env i = [Event.warnLog "save_step_logs"] ∧
    save_task_logs none env i = [Event.warnLog "save_task_logs"] ∧
    save_workflow_run_logs none env i = [Event.warnLog "save_workflow_run_logs"] ∧
    save_workflow_run_block_logs none env i =
      [Event.warnLog "save_workflow_run_block_logs"] :=
  ⟨rfl, rfl, rfl, rfl⟩

/-- C7: each of the four save operations filters the context's buffer using
the field name matching its own entity kind and delegates to the reconciler
exactly the matching entries (each delegation equation exhibits the filtered
log as the reconciler's argument); in particular, on the buffer
`[{step_id: s1}, {step_id: s2}]` the step operation with id `s1` reconciles
only the first entry. -/
theorem C7_filter_delegation (ctx : SkyvernContext) (env : Env) (i : String) :
    save_step_logs (some ctx) env i =
      save_log_artifacts env (filterLog ctx.log "step_id" i) .step i ctx.organization_id
        { step_id := some i } ∧
    save_task_logs (some ctx) env i =
      save_log_artifacts env (filterLog ctx.log "task_id" i) .task i ctx.organization_id
        { task_id := some i } ∧
    save_workflow_run_logs (some ctx) env i =
      save_log_artifacts env (filterLog ctx.log "workflow_run_id" i) .workflow_run i
        ctx.organization_id { workflow_run_id := some i } ∧
    save_workflow_run_block_logs (some ctx) env i =
      save_log_artifacts env (filterLog ctx.log "workflow_run_block_id" i)
        .workflow_run_block i ctx.organization_id
        { workflow_run_block_id := some i } ∧
    filterLog [LogEntry.mk [("step_id", "s1")], LogEntry.mk [("step_id", "s2")]]
        "step_id" "s1" = [LogEntry.mk [("step_id", "s1")]] :=
  ⟨rfl, rfl, rfl, rfl, by decide⟩

/-- C3: any exception escaping the `try:` body of `_save_log_artifacts`
(serialization, lookup, update or creation, in either pass) is caught: the
reconciler returns normally (it always yields a plain event trace), and the
trace ends with exactly one error-log event reporting the entity kind, the
entity id, the organization id, all four entity-id fields and the exception
detail. -/
theorem C3_errors_swallowed_and_logged (env : Env) (log : List LogEntry)
    (t : LogEntityType) (leid org : String) (ids : EntityIds) (e : String)
    (herr : (saveBody env log t leid org ids).2 = some e) :
    save_log_artifacts env log t leid org ids =
      (saveBody env log t leid org ids).1 ++ [Event.errorLog t leid org ids e] := by
  unfold save_log_artifacts
  rcases hsb : saveBody env log t leid org ids with ⟨evs, r⟩
  rw [hsb] at herr
  simp only at herr
  subst herr
  rfl

/-- C3 witness: a raw-serializer failure at a concrete input is logged, not
propagated. -/
theorem C3_witness :
    (saveBody envRawFail [] .step "s" "o" {}).2 = some "boom" ∧
    save_log_artifacts envRawFail [] .step "s" "o" {} =
      (saveBody envRawFail [] .step "s" "o" {}).1 ++
        [Event.errorLog .step "s" "o" {} "boom"] :=
  ⟨rfl, C3_errors_swallowed_and_logged envRawFail [] .step "s" "o" {} "boom" rfl⟩

/-- C2 counterexample: with an unrecognized entity kind and a store that finds
an existing raw artifact, deriving the primary key raises inside the
reconciler's `try:` body — and the error is swallowed by the blanket handler
(the reconciler returns normally, ending its trace with an error-log event),
contradicting the claim that it propagates to the caller. -/
theorem C2_counterexample :
    (saveBody envFound [] (.other "bogus") "x" "o" {}).2 =
      some "Invalid log entity type: bogus" ∧
    save_log_artifacts envFound [] (.other "bogus") "x" "o" {} =
      [Event.rawEncodeCall, Event.getArtifactCall .skyvern_log_raw {} "o",
       Event.errorLog (.other "bogus") "x" "o" {} "Invalid log entity type: bogus"] :=
  ⟨rfl, rfl⟩

/-- C2 (amended): deriving a primary-key field name for an unrecognized entity
kind raises immediately; but when the derivation is reached inside the
reconciler (an existing raw artifact was found), the resulting error is caught
by the reconciler's blanket exception handler: it is logged with full context
and does not propagate — no update call is issued for that pass and the
reconciler returns normally. -/
theorem C2_amended_pk_error_swallowed (s : String) (env : Env) (log : List LogEntry)
    (leid org : String) (ids : EntityIds) (j : String) (a : Artifact)
    (hj : env.json_dumps log = .ok j)
    (hget : env.get_artifact_by_entity_id .skyvern_log_raw ids org = .ok (some a)) :
    primary_key_from_log_entity_type (.other s) =
      .error ("Invalid log entity type: " ++ s) ∧
    save_log_artifacts env log (.other s) leid org ids =
      [Event.rawEncodeCall, Event.getArtifactCall .skyvern_log_raw ids org,
       Event.errorLog (.other s) leid org ids ("Invalid log entity type: " ++ s)] := by
  refine ⟨rfl, ?_⟩
  unfold save_log_artifacts saveBody rawSegment reconcilePass
  rw [hj, hget]
  simp [primary_key_from_log_entity_type]

/-- C2 amended witness at a concrete input. -/
theorem C2_amended_witness :
    primary_key_from_log_entity_type (.other "bogus") =
      .error ("Invalid log entity type: " ++ "bogus") ∧
    save_log_artifacts envFound [] (.other "bogus") "x" "o" {} =
      [Event.rawEncodeCall, Event.getArtifactCall .skyvern_log_raw {} "o",
       Event.errorLog (.other "bogus") "x" "o" {}
         ("Invalid log entity type: " ++ "bogus")] :=
  C2_amended_pk_error_swallowed "bogus" envFound [] "x" "o" {} "RAW"
    { artifact_id := "a1" } rfl rfl

lemma save_log_artifacts_eq_raw_append (env : Env) (log : List LogEntry) (t : LogEntityType)
    (leid org : String) (ids : EntityIds) :
    ∃ rest, save_log_artifacts env log t leid org ids =
      (rawSegment env log t leid org ids).1 ++ rest := by
  unfold save_log_artifacts saveBody
  rcases hr : rawSegment env log t leid org ids with ⟨evs, r⟩
  cases r with
  | some e => exact ⟨[Event.errorLog t leid org ids e], rfl⟩
  | none =>
    rcases hf : fmtSegment env log t leid org ids with ⟨evs2, r2⟩
    cases r2 with
    | some e => exact ⟨evs2 ++ [Event.errorLog t leid org ids e], by simp [hf]⟩
    | none => exact ⟨evs2, by simp [hf]⟩

/-- C5: in each pass, when the store lookup finds an existing artifact of that
pass's type, the pass's trace is exactly encoder invocation, lookup, then one
update call — never a create call — and the update call carries that
artifact's id and the primary-key field name determined by the entity kind
(Step maps to step_id, Task to task_id, WorkflowRun to workflow_run_id,
WorkflowRunBlock to workflow_run_block_id); the reconciler's full trace begins
with the raw pass's events. -/
theorem C5_found_updates_never_creates (env : Env) (log : List LogEntry)
    (t : LogEntityType) (leid org : String) (ids : EntityIds) (pk j fj : String)
    (a a2 : Artifact)
    (hpk : primary_key_from_log_entity_type t = .ok pk)
    (hj : env.json_dumps log = .ok j) :
    ((t = .step → pk = "step_id") ∧ (t = .task → pk = "task_id") ∧
     (t = .workflow_run → pk = "workflow_run_id") ∧
     (t = .workflow_run_block → pk = "workflow_run_block_id")) ∧
    (env.get_artifact_by_entity_id .skyvern_log_raw ids org = .ok (some a) →
      (rawSegment env log t leid org ids).1 =
        [Event.rawEncodeCall, Event.getArtifactCall .skyvern_log_raw ids org,
         Event.updateCall .skyvern_log_raw a.artifact_id org j pk] ∧
      ∃ rest, save_log_artifacts env log t leid org ids =
        [Event.rawEncodeCall, Event.getArtifactCall .skyvern_log_raw ids org,
         Event.updateCall .skyvern_log_raw a.artifact_id org j pk] ++ rest) ∧
    (env.log_encode log = .ok fj →
     env.get_artifact_by_entity_id .skyvern_log ids org = .ok (some a2) →
      (fmtSegment env log t leid org ids).1 =
        [Event.fmtEncodeCall, Event.getArtifactCall .skyvern_log ids org,
         Event.updateCall .skyvern_log a2.artifact_id org fj pk]) := by
  refine ⟨⟨?_, ?_, ?_, ?_⟩, ?_, ?_⟩
  · rintro rfl
    injection hpk with h
    exact h.symm
  · rintro rfl
    injection hpk with h
    exact h.symm
  · rintro rfl
    injection hpk with h
    exact h.symm
  · rintro rfl
    injection hpk with h
    exact h.symm
  · intro hget
    have hraw : (rawSegment env log t leid org ids).1 =
        [Event.rawEncodeCall, Event.getArtifactCall .skyvern_log_raw ids org,
         Event.updateCall .skyvern_log_raw a.artifact_id org j pk] := by
      unfold rawSegment reconcilePass
      rw [hj, hget, hpk]
      cases hu : env.update_artifact_data a.artifact_id org j pk <;> simp [hu]
    refine ⟨hraw, ?_⟩
    obtain ⟨rest, hrest⟩ := save_log_artifacts_eq_raw_append env log t leid org ids
    rw [hraw] at hrest
    exact ⟨rest, hrest⟩
  · intro hfj hget2
    unfold fmtSegment reconcilePass
    rw [hfj, hget2, hpk]
    cases hu : env.update_artifact_data a2.artifact_id org fj pk <;> simp [hu]

/-- C5 witness at a concrete input: kind Task, store finding artifact `a1`. -/
theorem C5_witness :
    (rawSegment envFound [] .task "t1" "o" { task_id := some "t1" }).1 =
      [Event.rawEncodeCall,
       Event.getArtifactCall .skyvern_log_raw { task_id := some "t1" } "o",
       Event.updateCall .skyvern_log_raw "a1" "o" "RAW" "task_id"] ∧
    (fmtSegment envFound [] .task "t1" "o" { task_id := some "t1" }).1 =
      [Event.fmtEncodeCall,
       Event.getArtifactCall .skyvern_log { task_id := some "t1" } "o",
       Event.updateCall .skyvern_log "a1" "o" "FMT" "task_id"] :=
  ⟨((C5_found_updates_never_creates envFound [] .task "t1" "o" { task_id := some "t1" }
      "task_id" "RAW" "FMT" { artifact_id := "a1" } { artifact_id := "a1" } rfl rfl).2.1
      rfl).1,
   (C5_found_updates_never_creates envFound [] .task "t1" "o" { task_id := some "t1" }
      "task_id" "RAW" "FMT" { artifact_id := "a1" } { artifact_id := "a1" } rfl rfl).2.2
      rfl rfl⟩

/-- C6: when the store lookup finds no existing artifact of either type (and
encoders and creations succeed), the reconciler's full trace is exactly: raw
encode, raw lookup, one create with the raw payload, formatted encode,
formatted lookup, one create with the formatted payload — so create is called
exactly twice, once per artifact type, each with that type's encoded payload,
and update is never called. -/
theorem C6_absent_creates_twice (env : Env) (log : List LogEntry) (t : LogEntityType)
    (leid org : String) (ids : EntityIds) (j fj : String)
    (hj : env.json_dumps log = .ok j) (hfj : env.log_encode log = .ok fj)
    (hg1 : env.get_artifact_by_entity_id .skyvern_log_raw ids org = .ok none)
    (hg2 : env.get_artifact_by_entity_id .skyvern_log ids org = .ok none)
    (hc1 : env.create_log_artifact org ids t leid .skyvern_log_raw j = .ok ())
    (hc2 : env.create_log_artifact org ids t leid .skyvern_log fj = .ok ()) :
    save_log_artifacts env log t leid org ids =
      [Event.rawEncodeCall, Event.getArtifactCall .skyvern_log_raw ids org,
       Event.createCall org ids t leid .skyvern_log_raw j,
       Event.fmtEncodeCall, Event.getArtifactCall .skyvern_log ids org,
       Event.createCall org ids t leid .skyvern_log fj] := by
  unfold save_log_artifacts saveBody rawSegment fmtSegment reconcilePass
  rw [hj, hfj, hg1, hg2]
  dsimp only
  rw [hc1, hc2]
  rfl

/-- C6 witness at a concrete input. -/
theorem C6_witness :
    save_log_artifacts envAllOk [] .step "s1" "o" { step_id := some "s1" } =
      [Event.rawEncodeCall,
       Event.getArtifactCall .skyvern_log_raw { step_id := some "s1" } "o",
       Event.createCall "o" { step_id := some "s1" } .step "s1" .skyvern_log_raw "RAW",
       Event.fmtEncodeCall,
       Event.getArtifactCall .skyvern_log { step_id := some "s1" } "o",
       Event.createCall "o" { step_id := some "s1" } .step "s1" .skyvern_log "FMT"] :=
  C6_absent_creates_twice envAllOk [] .step "s1" "o" { step_id := some "s1" } "RAW" "FMT"
    rfl rfl rfl rfl rfl rfl

lemma rawSegment_events_not_fmt (env : Env) (log : List LogEntry) (t : LogEntityType)
    (leid org : String) (ids : EntityIds) :
    ∀ ev ∈ (rawSegment env log t leid org ids).1, ev.isFmtPassEvent = false := by
  intro ev hev
  unfold rawSegment reconcilePass at hev
  cases hjd : env.json_dumps log <;> rw [hjd] at hev
  case error e =>
    simp at hev
    subst hev
    rfl
  case ok j =>
    dsimp only at hev
    cases hg : env.get_artifact_by_entity_id .skyvern_log_raw ids org <;> rw [hg] at hev
    case error e =>
      simp at hev
      rcases hev with rfl | rfl <;> rfl
    case ok o =>
      cases o with
      | none =>
        dsimp only at hev
        cases hc : env.create_log_artifact org ids t leid .skyvern_log_raw j <;>
          rw [hc] at hev <;>
          (simp at hev; rcases hev with rfl | rfl | rfl <;> rfl)
      | some art =>
        dsimp only at hev
        cases hpk : primary_key_from_log_entity_type t <;> rw [hpk] at hev
        case error e =>
          simp at hev
          rcases hev with rfl | rfl <;> rfl
        case ok pk =>
          dsimp only at hev
          cases hu : env.update_artifact_data art.artifact_id org j pk <;>
            rw [hu] at hev <;>
            (simp at hev; rcases hev with rfl | rfl | rfl <;> rfl)

lemma save_eq_of_rawSegment_error (env : Env) (log : List LogEntry) (t : LogEntityType)
    (leid org : String) (ids : EntityIds) (e : String)
    (herr : (rawSegment env log t leid org ids).2 = some e) :
    save_log_artifacts env log t leid org ids =
      (rawSegment env log t leid org ids).1 ++ [Event.errorLog t leid org ids e] := by
  unfold save_log_artifacts saveBody
  rcases hr : rawSegment env log t leid org ids with ⟨evs, r⟩
  rw [hr] at herr
  simp only at herr
  subst herr
  rfl

/-- C10: whenever any step of the raw pass raises (raw serialization, raw
lookup, raw update or create — i.e. the raw segment ends in an exception), the
formatted pass of the same invocation never executes: the reconciler's trace
contains no formatted-encoder invocation and no formatted-log lookup, update
or create call. -/
theorem C10_raw_failure_blocks_fmt_pass (env : Env) (log : List LogEntry)
    (t : LogEntityType) (leid org : String) (ids : EntityIds) (e : String)
    (herr : (rawSegment env log t leid org ids).2 = some e) :
    ∀ ev ∈ save_log_artifacts env log t leid org ids, ev.isFmtPassEvent = false := by
  intro ev hev
  rw [save_eq_of_rawSegment_error env log t leid org ids e herr] at hev
  simp at hev
  rcases hev with hev | rfl
  · exact rawSegment_events_not_fmt env log t leid org ids ev hev
  · rfl

/-- C10 witness: with a failing raw serializer at a concrete input, a concrete
event of the resulting trace is not a formatted-pass event. -/
theorem C10_witness :
    (rawSegment envRawFail [] .step "s" "o" {}).2 = some "boom" ∧
    Event.isFmtPassEvent Event.rawEncodeCall = false :=
  ⟨rfl, C10_raw_failure_blocks_fmt_pass envRawFail [] .step "s" "o" {} "boom" rfl
     Event.rawEncodeCall (by decide)⟩

lemma reconcilePass_idsUsed (env : Env) (atype : ArtifactType) (ids : EntityIds)
    (t : LogEntityType) (leid org data : String) :
    ∀ ev ∈ (reconcilePass env atype ids t leid org data).1,
      ev.idsUsed = none ∨ ev.idsUsed = some ids := by
  intro ev hev
  unfold reconcilePass at hev
  cases hg : env.get_artifact_by_entity_id atype ids org <;> rw [hg] at hev
  case error e =>
    simp at hev
    subst hev
    right
    rfl
  case ok o =>
    cases o with
    | none =>
      dsimp only at hev
      cases hc : env.create_log_artifact org ids t leid atype data <;>
        rw [hc] at hev <;>
        (simp at hev; rcases hev with rfl | rfl) <;> (right; rfl)
    | some art =>
      dsimp only at hev
      cases hpk : primary_key_from_log_entity_type t <;> rw [hpk] at hev
      case error e =>
        simp at hev
        subst hev
        right
        rfl
      case ok pk =>
        dsimp only at hev
        cases hu : env.update_artifact_data art.artifact_id org data pk <;>
          rw [hu] at hev <;>
          (simp at hev; rcases hev with rfl | rfl) <;> first
            | (right; rfl)
            | (left; rfl)

lemma rawSegment_idsUsed (env : Env) (log : List LogEntry) (t : LogEntityType)
    (leid org : String) (ids : EntityIds) :
    ∀ ev ∈ (rawSegment env log t leid org ids).1,
      ev.idsUsed = none ∨ ev.idsUsed = some ids := by
  intro ev hev
  unfold rawSegment at hev
  cases hjd : env.json_dumps log <;> rw [hjd] at hev
  case error e =>
    simp at hev
    subst hev
    left
    rfl
  case ok j =>
    simp at hev
    rcases hev with rfl | hev
    · left
      rfl
    · exact reconcilePass_idsUsed env .skyvern_log_raw ids t leid org j ev hev

lemma fmtSegment_idsUsed (env : Env) (log : List LogEntry) (t : LogEntityType)
    (leid org : String) (ids : EntityIds) :
    ∀ ev ∈ (fmtSegment env log t leid org ids).1,
      ev.idsUsed = none ∨ ev.idsUsed = some ids := by
  intro ev hev
  unfold fmtSegment at hev
  cases hle : env.log_encode log <;> rw [hle] at hev
  case error e =>
    simp at hev
    subst hev
    left
    rfl
  case ok fj =>
    simp at hev
    rcases hev with rfl | hev
    · left
      rfl
    · exact reconcilePass_idsUsed env .skyvern_log ids t leid org fj ev hev

lemma save_log_artifacts_idsUsed (env : Env) (log : List LogEntry) (t : LogEntityType)
    (leid org : String) (ids : EntityIds) :
    ∀ ev ∈ save_log_artifacts env log t leid org ids,
      ev.idsUsed = none ∨ ev.idsUsed = some ids := by
  intro ev hev
  unfold save_log_artifacts saveBody at hev
  rcases hr : rawSegment env log t leid org ids with ⟨evs, r⟩
  rw [hr] at hev
  have hraw : ∀ x ∈ evs, Event.idsUsed x = none ∨ Event.idsUsed x = some ids := by
    intro x hx
    exact rawSegment_idsUsed env log t leid org ids x (by rw [hr]; exact hx)
  cases r with
  | some e =>
    simp at hev
    rcases hev with hev | rfl
    · exact hraw ev hev
    · left
      rfl
  | none =>
    rcases hf : fmtSegment env log t leid org ids with ⟨evs2, r2⟩
    rw [hf] at hev
    have hfmt : ∀ x ∈ evs2, Event.idsUsed x = none ∨ Event.idsUsed x = some ids := by
      intro x hx
      exact fmtSegment_idsUsed env log t leid org ids x (by rw [hf]; exact hx)
    cases r2 with
    | some e =>
      simp at hev
      rcases hev with hev | hev | rfl
      · exact hraw ev hev
      · exact hfmt ev hev
      · left
        rfl
    | none =>
      simp at hev
      rcases hev with hev | hev
      · exact hraw ev hev
      · exact hfmt ev hev

/-- C8: each save operation passes to the reconciler an entity-id record in
which exactly one of the four fields is non-null — the one matching the
operation's entity kind, set to the operation's id — and every store or
manager call in the resulting trace that carries entity-id fields (lookup and
create) carries exactly that record. Stated for all four operations. -/
theorem C8_single_non_null_entity_id (ctx : SkyvernContext) (env : Env) (i : String) :
    (save_step_logs (some ctx) env i =
        save_log_artifacts env (filterLog ctx.log "step_id" i) .step i
          ctx.organization_id (EntityIds.mk (some i) none none none) ∧
      ∀ ev ∈ save_step_logs (some ctx) env i,
        ev.idsUsed = none ∨ ev.idsUsed = some (EntityIds.mk (some i) none none none)) ∧
    (save_task_logs (some ctx) env i =
        save_log_artifacts env (filterLog ctx.log "task_id" i) .task i
          ctx.organization_id (EntityIds.mk none (some i) none none) ∧
      ∀ ev ∈ save_task_logs (some ctx) env i,
        ev.idsUsed = none ∨ ev.idsUsed = some (EntityIds.mk none (some i) none none)) ∧
    (save_workflow_run_logs (some ctx) env i =
        save_log_artifacts env (filterLog ctx.log "workflow_run_id" i) .workflow_run i
          ctx.organization_id (EntityIds.mk none none (some i) none) ∧
      ∀ ev ∈ save_workflow_run_logs (some ctx) env i,
        ev.idsUsed = none ∨ ev.idsUsed = some (EntityIds.mk none none (some i) none)) ∧
    (save_workflow_run_block_logs (some ctx) env i =
        save_log_artifacts env (filterLog ctx.log "workflow_run_block_id" i)
          .workflow_run_block i ctx.organization_id (EntityIds.mk none none none (some i)) ∧
      ∀ ev ∈ save_workflow_run_block_logs (some ctx) env i,
        ev.idsUsed = none ∨ ev.idsUsed = some (EntityIds.mk none none none (some i))) := by
  refine ⟨⟨rfl, ?_⟩, ⟨rfl, ?_⟩, ⟨rfl, ?_⟩, ⟨rfl, ?_⟩⟩ <;>
    (intro ev hev; exact save_log_artifacts_idsUsed env _ _ _ _ _ ev hev)

/-- C8 witness: at a concrete context and environment, the raw-log lookup
event of the step-save trace carries exactly the record with only `step_id`
non-null. -/
theorem C8_witness :
    Event.idsUsed
        (Event.getArtifactCall .skyvern_log_raw (EntityIds.mk (some "s1") none none none)
          "o") = none ∨
    Event.idsUsed
        (Event.getArtifactCall .skyvern_log_raw (EntityIds.mk (some "s1") none none none)
          "o") = some (EntityIds.mk (some "s1") none none none) :=
  (C8_single_non_null_entity_id { log := [], organization_id := "o" } envAllOk "s1").1.2
    (Event.getArtifactCall .skyvern_log_raw (EntityIds.mk (some "s1") none none none) "o")
    (by decide)

end LogArtifacts
